import Mathlib

/-!
# winston-papertrail-transport — verification of the connection/buffering core

Shallow embedding of `src/index.ts`.  The file contains two near-duplicate
implementations of the transport, concatenated in the source; we model both,
as namespaces `V1` (the first, lines 1–362) and `V2` (the second, lines
363–678).  Pure state updates are modelled by explicit state passing; the
observable effects of a call (stream writes, emitted events, socket
teardown) are returned as a list of `Action`s.
-/

set_option maxHeartbeats 1000000
set_option maxRecDepth 100000

namespace Papertrail

/-- One entry of the Pending Write Queue (`deferredQueue`):
`{ buffer: text, callback }`.  The callback is opaque; we give each one an
identifier so that delivery of the right callback is observable. -/
structure Entry where
  buffer : String
  callback : Nat
deriving DecidableEq, Repr

/-- The state of the `stream` socket object, as far as the core consults it:
whether `stream.writable` is true, whether a synchronous `stream.write`
call throws (used to model the synchronous-failure path), and how many
`'empty'` listeners that tear the sockets down have been registered on this
stream by `close()` — each `stream.on('empty', …)` call adds one more
listener, so repeated closes accumulate duplicates. -/
structure StreamState where
  writable : Bool
  writeThrows : Bool
  onEmptyClose : Nat
deriving DecidableEq, Repr

/-- Mutable fields of `PapertrailConnection` (identical in both versions).
`stream = none` models `this.stream === undefined`; `socket` records whether
the raw TCP socket `this.socket` is live. -/
structure ConnState where
  connectionDelay : Nat
  currentRetries : Nat
  totalRetries : Nat
  loggingEnabled : Bool
  _shutdown : Bool
  _erroring : Bool
  deferredQueue : List Entry
  stream : Option StreamState
  socket : Bool
deriving DecidableEq, Repr

/-- The configuration fields consulted by the connection core. -/
structure Options where
  attemptsBeforeDecay : Nat
  maximumAttempts : Nat
  connectionDelay : Nat
  maxDelayBetweenReconnection : Nat
  flushOnClose : Bool
deriving DecidableEq, Repr

/-- Observable effects of one synchronous run of the core. -/
inductive Action where
  | writeOut (buffer : String) (callback : Nat)
  | emitEmpty
  | emitConnect
  | emitError (msg : String)
  | destroySocket
  | destroyStream
  | startConnection
deriving DecidableEq, Repr

/-- `this.stream && this.stream.writable` (resp. `this.stream?.writable`). -/
def streamWritable (s : ConnState) : Bool :=
  match s.stream with
  | some st => st.writable
  | none => false

/-- `this.deferredQueue.push({ buffer: text, callback })`. -/
def enqueue (s : ConnState) (text : String) (cb : Nat) : ConnState :=
  { s with deferredQueue := s.deferredQueue ++ [⟨text, cb⟩] }

/-- The primitive `this.stream.write(text, callback)`: on the modelled
streams it either succeeds, producing the write effect, or throws
synchronously (`writeThrows`). -/
def streamWrite (st : StreamState) (text : String) (cb : Nat) :
    Except Unit (List Action) :=
  if st.writeThrows then .error () else .ok [Action.writeOut text cb]

/-- The drain loop shared by both `processBuffer`s: take entries one at a
time (v1 from the front — `shift()` —, v2 from the back — `pop()`, i.e.
from the front of the reversed queue), and call `this.stream.write` on
each WITHOUT try/catch, so the first synchronous throw aborts the loop:
the entry whose write threw has already been removed from the queue, the
untraversed entries remain queued, and the exception propagates (no
`'empty'` is emitted).  Returns (untraversed entries, writes performed,
whether a write threw). -/
def drainLoop (st : StreamState) : List Entry → List Entry × List Action × Bool
  | [] => ([], [], false)
  | e :: rest =>
    match streamWrite st e.buffer e.callback with
    | .ok a =>
      let r := drainLoop st rest
      (r.1, a ++ r.2.1, r.2.2)
    | .error _ => (rest, [], true)

/-- The writes performed by a shift-drain that encounters no synchronous
throw: the entries in queue order. -/
def drainShift : List Entry → List Action
  | [] => []
  | e :: rest => Action.writeOut e.buffer e.callback :: drainShift rest

/-- The writes performed by a pop-drain that encounters no synchronous
throw: `pop()` removes the LAST queue entry, so the entries are written in
reverse queue order. -/
def drainPop (q : List Entry) : List Action :=
  drainShift q.reverse

/-- A drain on a stream whose writes do not throw consumes the whole queue
and performs the writes in traversal order. -/
theorem drainLoop_no_throw (st : StreamState) (hw : st.writeThrows = false) :
    ∀ l, drainLoop st l = ([], drainShift l, false) := by
  intro l
  induction l with
  | nil => rfl
  | cons e rest ih =>
    simp [drainLoop, drainShift, streamWrite, hw, ih]

namespace V1

/-- v1 `write(text, callback)` (src/index.ts:257-268).  No try/catch: a
synchronous `stream.write` failure propagates to the caller (modelled by
`Except.error`). -/
def write (s : ConnState) (text : String) (cb : Nat) :
    Except Unit (ConnState × List Action) :=
  match s.stream with
  | some st =>
    if st.writable then
      match streamWrite st text cb with
      | .ok acts => .ok (s, acts)
      | .error e => .error e
    else .ok (enqueue s text cb, [])
  | none => .ok (enqueue s text cb, [])

/-- v1 `close()` (src/index.ts:325-361), teardown branch of `_close`: the
body run once `attempt >= max || this.deferredQueue.length <= 0` holds —
immediately when the queue is empty, otherwise after the six timer-deferred
re-attempts have elapsed with the queue still non-empty.  Sets
`_shutdown = true`, destroys the raw socket at once, and either destroys the
stream (the direct `closeStream()` call, made under the `if (this.stream)`
guard so it cannot throw) or — with `flushOnClose` and a non-empty queue —
registers ONE MORE `'empty'` listener that will run `closeStream`. -/
def closeFinal (o : Options) (s : ConnState) : ConnState × List Action :=
  let s1 := { s with _shutdown := true }
  let p :=
    if s1.socket then ({ s1 with socket := false }, [Action.destroySocket])
    else (s1, [])
  match p.1.stream with
  | some st =>
    if o.flushOnClose ∧ 0 < p.1.deferredQueue.length then
      ({ p.1 with stream := some { st with onEmptyClose := st.onEmptyClose + 1 } },
        p.2)
    else ({ p.1 with stream := none }, p.2 ++ [Action.destroyStream])
  | none => (p.1, p.2)

/-- v1 `connect()` (src/index.ts:224-255), synchronous part of the
`disableTls` branch: no-op when `_shutdown` or `_erroring` is set; otherwise
it calls `close()` (whose first `_close` iteration runs the teardown branch
immediately when the queue is empty, and otherwise defers everything to a
later timer), then begins a new outbound connection, assigning a fresh,
not-yet-connected stream to `this.stream`. -/
def connect (o : Options) (s : ConnState) : ConnState × List Action :=
  if s._shutdown ∨ s._erroring then (s, [])
  else
    let p := if s.deferredQueue.length = 0 then closeFinal o s else (s, [])
    ({ p.1 with stream := some ⟨false, false, 0⟩ },
      p.2 ++ [Action.startConnection])

/-- v1 `closeStream` (src/index.ts:328-333): `this.stream!.removeListener`,
`this.stream!.destroy()`, `this.stream = undefined` — UNGUARDED: when the
stream has already been cleared, the `this.stream!` dereference throws a
TypeError (flag `true`, no state change, no actions). -/
def closeStream (s : ConnState) : (ConnState × List Action) × Bool :=
  match s.stream with
  | some _ => (({ s with stream := none }, [Action.destroyStream]), false)
  | none => ((s, []), true)

/-- Dispatch of the `'empty'` listeners registered on the v1 stream by
`close()`: `emit` calls the snapshot of listeners in registration order,
each running `closeStream`; an exception from a listener propagates out of
`emit` at once, skipping the remaining listeners. -/
def runEmptyListeners (s : ConnState) : Nat → (ConnState × List Action) × Bool
  | 0 => ((s, []), false)
  | n + 1 =>
    let r := closeStream s
    if r.2 then r
    else
      let r2 := runEmptyListeners r.1.1 n
      ((r2.1.1, r.1.2 ++ r2.1.2), r2.2)

/-- v1 `this.stream.emit('empty')`: the event plus the dispatch of every
registered teardown listener (see `runEmptyListeners`). -/
def emitEmpty (s : ConnState) : (ConnState × List Action) × Bool :=
  match s.stream with
  | some st =>
    let r := runEmptyListeners s st.onEmptyClose
    ((r.1.1, Action.emitEmpty :: r.1.2), r.2)
  | none => ((s, [Action.emitEmpty]), false)

/-- v1 `processBuffer` (src/index.ts:270-280): bail out if the queue is
empty or the stream is missing/not writable; otherwise `shift()` entries,
writing each without try/catch — a synchronous throw aborts the drain with
the remaining entries still queued and no `'empty'` emitted — and on a
complete drain `emit('empty')` (whose listener dispatch may itself
throw).  The last component records whether an exception propagated. -/
def processBuffer (s : ConnState) : ConnState × List Action × Bool :=
  if s.deferredQueue.length = 0 ∨ s.stream = none ∨ streamWritable s = false then
    (s, [], false)
  else
    match s.stream with
    | none => (s, [], false)
    | some st =>
      let r := drainLoop st s.deferredQueue
      let s1 := { s with deferredQueue := r.1 }
      if r.2.2 then (s1, r.2.1, true)
      else
        let p := emitEmpty s1
        (p.1.1, r.2.1 ++ p.1.2, p.2)

/-- v1 `onConnected` (src/index.ts:282-291): reset `loggingEnabled`, the
retry counters and the backoff delay, drain the queue — an exception from
the drain or the `'empty'` dispatch propagates, skipping the `connect`
emit — then emit `connect`. -/
def onConnected (o : Options) (s : ConnState) : ConnState × List Action × Bool :=
  let s1 := { s with loggingEnabled := true, currentRetries := 0, totalRetries := 0,
                     connectionDelay := o.connectionDelay }
  let r := processBuffer s1
  if r.2.2 then r
  else (r.1, r.2.1 ++ [Action.emitConnect], false)

end V1

namespace V2

/-- v2 `write(text, callback)` (src/index.ts:571-582): a synchronous
`stream.write` failure is caught and the payload is pushed onto the
deferred queue instead. -/
def write (s : ConnState) (text : String) (cb : Nat) :
    Except Unit (ConnState × List Action) :=
  match s.stream with
  | some st =>
    if st.writable then
      match streamWrite st text cb with
      | .ok acts => .ok (s, acts)
      | .error _ => .ok (enqueue s text cb, [])
    else .ok (enqueue s text cb, [])
  | none => .ok (enqueue s text cb, [])

/-- v2 `closeSockets` (src/index.ts:639-650): destroy the raw socket if
present, then remove the stream's listeners, destroy it and clear it. -/
def closeSockets (s : ConnState) : ConnState × List Action :=
  let p :=
    if s.socket then ({ s with socket := false }, [Action.destroySocket])
    else (s, [])
  match p.1.stream with
  | some _ => ({ p.1 with stream := none }, p.2 ++ [Action.destroyStream])
  | none => (p.1, p.2)

/-- Dispatch of the `'empty'` listeners registered on the v2 stream by
`close()`, each running `closeSockets`: since `closeSockets` guards both
the socket and the stream, duplicate listeners are harmless no-ops and the
dispatch never throws. -/
def runEmptyListeners (s : ConnState) : Nat → ConnState × List Action
  | 0 => (s, [])
  | n + 1 =>
    let r := closeSockets s
    let r2 := runEmptyListeners r.1 n
    (r2.1, r.2 ++ r2.2)

/-- v2 `this.stream.emit('empty')`: the event plus the dispatch of every
registered teardown listener (see `runEmptyListeners`). -/
def emitEmpty (s : ConnState) : ConnState × List Action :=
  match s.stream with
  | some st =>
    let r := runEmptyListeners s st.onEmptyClose
    (r.1, Action.emitEmpty :: r.2)
  | none => (s, [Action.emitEmpty])

/-- v2 `processBuffer` (src/index.ts:584-594): bail out if the queue is
empty or the stream is missing/not writable; otherwise `pop()` entries
(i.e. traverse the reversed queue), writing each without try/catch — a
synchronous throw aborts the drain with the untraversed entries still
queued and no `'empty'` emitted — and on a complete drain `emit('empty')`.
The last component records whether an exception propagated. -/
def processBuffer (s : ConnState) : ConnState × List Action × Bool :=
  if s.deferredQueue.length = 0 ∨ s.stream = none ∨ streamWritable s = false then
    (s, [], false)
  else
    match s.stream with
    | none => (s, [], false)
    | some st =>
      let r := drainLoop st s.deferredQueue.reverse
      let s1 := { s with deferredQueue := r.1.reverse }
      if r.2.2 then (s1, r.2.1, true)
      else
        let p := emitEmpty s1
        (p.1, r.2.1 ++ p.2, false)

/-- v2 `onConnected` (src/index.ts:596-605): reset `loggingEnabled`, the
retry counters and the backoff delay, drain the queue — an exception from
the drain propagates, skipping the `connect` emit — then emit
`connect`. -/
def onConnected (o : Options) (s : ConnState) : ConnState × List Action × Bool :=
  let s1 := { s with loggingEnabled := true, currentRetries := 0, totalRetries := 0,
                     connectionDelay := o.connectionDelay }
  let r := processBuffer s1
  if r.2.2 then r
  else (r.1, r.2.1 ++ [Action.emitConnect], false)

/-- v2 `close()` (src/index.ts:652-677): sets `_shutdown = true`, then runs
`_close` synchronously: when a stream is present it either registers ONE
MORE `'empty'` listener running `closeSockets` (with `flushOnClose` and a
non-empty queue) or runs `closeSockets` at once; in every case that does not
throw, `_shutdown` is reset to `false` before `close()` returns. -/
def close (o : Options) (s : ConnState) : ConnState × List Action :=
  let s1 := { s with _shutdown := true }
  let p :=
    match s1.stream with
    | some st =>
      if o.flushOnClose ∧ 0 < s1.deferredQueue.length then
        ({ s1 with stream := some { st with onEmptyClose := st.onEmptyClose + 1 } },
          ([] : List Action))
      else closeSockets s1
    | none => (s1, [])
  ({ p.1 with _shutdown := false }, p.2)

/-- v2 `connect()` (src/index.ts:537-569), synchronous part of the
`disableTls` branch: no-op when `_shutdown` or `_erroring` is set; otherwise
it calls `close()` synchronously and then begins a new outbound connection,
assigning a fresh, not-yet-connected stream to `this.stream`. -/
def connect (o : Options) (s : ConnState) : ConnState × List Action :=
  if s._shutdown ∨ s._erroring then (s, [])
  else
    let p := close o s
    ({ p.1 with stream := some ⟨false, false, 0⟩ },
      p.2 ++ [Action.startConnection])

end V2

/-- The state in which a pending stream has completed its handshake: the
stream object held in `this.stream` becomes writable just before the
connect callback (`onConnected`) runs.  Listener registrations on the
stream (such as a pending `'empty'` close listener) survive, since it is
the same object. -/
def markWritable (s : ConnState) : ConnState :=
  match s.stream with
  | some st => { s with stream := some { st with writable := true } }
  | none => s

/-- The body of the `setTimeout` callback of `onErrored` (identical in both
versions: src/index.ts:293-315 and 607-629), together with the `_erroring`
flag set before the timer is scheduled and the error surfaced via
`emitSilentError`.  The trailing `connect()` call is not part of this step;
a sequence of consecutive failed attempts is modelled by iterating this
step (each `connect()` fails again and re-enters `onErrored`). -/
def onErroredStep (o : Options) (s : ConnState) : ConnState × List Action :=
  let s1 := { s with _erroring := true }
  let s2 :=
    if s1.connectionDelay < o.maxDelayBetweenReconnection ∧
        o.attemptsBeforeDecay ≤ s1.currentRetries then
      { s1 with connectionDelay := s1.connectionDelay * 2,
                currentRetries := s1.currentRetries + 1 }
    else s1
  let p :=
    if s2.loggingEnabled ∧ o.maximumAttempts ≤ s2.totalRetries then
      ({ s2 with loggingEnabled := false },
        [Action.emitError "Maximum number of retries exceeded, disabling buffering"])
    else (s2, ([] : List Action))
  ({ p.1 with _erroring := false },
    Action.emitError "connection error" :: p.2)

/-- The state after `n` consecutive failed connection attempts starting
from `s`, each attempt running the `onErrored` timer body. -/
def failSeq (o : Options) (s : ConnState) : Nat → ConnState
  | 0 => s
  | n + 1 => (onErroredStep o (failSeq o s n)).1

/-! ## Message Sender (`PapertrailTransport.sendMessage`) -/

/-- The value placed in the `severity` field of a produced frame.  The v1
lookup `this.options.levels[cleanedLevel] || cleanedLevel` can yield either
a number from the table or the level string itself, so the severity is a
number-or-string. -/
inductive Sev where
  | num : Nat → Sev
  | str : String → Sev
deriving DecidableEq, Repr

/-- JS object property lookup `levels[level]`, on a levels table given as
an association list. -/
def lookupLevel : List (String × Nat) → String → Option Nat
  | [], _ => none
  | (k, v) :: rest, l => if k = l then some v else lookupLevel rest l

/-- JS `a || b` where `a` is the result of the levels lookup: `undefined`
and the number `0` are falsy, every other number is truthy. -/
def jsOr (v : Option Nat) (fallback : Sev) : Sev :=
  match v with
  | some n => if n = 0 then fallback else Sev.num n
  | none => fallback

/-- After `ESC [` and one digit: consume further digits, then require `m`
(the tail of the regex `\u001b\[\d+m`). -/
def ansiRest : List Char → Option (List Char)
  | [] => none
  | c :: rest =>
    if c.isDigit then ansiRest rest
    else if c = 'm' then some rest
    else none

/-- After `ESC [`: require at least one digit, then `ansiRest`. -/
def ansiBody : List Char → Option (List Char)
  | [] => none
  | c :: rest => if c.isDigit then ansiRest rest else none

/-- `level.replace(/\u001b\[\d+m/g, '')`: remove every (non-overlapping)
ANSI color escape.  Structured on fuel for kernel reducibility; every
recursive call consumes at least one character, so fuel equal to the
input length suffices. -/
def stripAnsiGo : Nat → List Char → List Char
  | 0, cs => cs
  | _ + 1, [] => []
  | fuel + 1, c :: rest =>
    if c = Char.ofNat 27 then
      match rest with
      | '[' :: r2 =>
        match ansiBody r2 with
        | some rem => stripAnsiGo fuel rem
        | none => c :: stripAnsiGo fuel rest
      | _ => c :: stripAnsiGo fuel rest
    else c :: stripAnsiGo fuel rest

/-- The `cleanedLevel` computation of v1 `sendMessage`
(src/index.ts:168). -/
def stripColorCodes (s : String) : String :=
  ⟨stripAnsiGo s.data.length s.data⟩

/-- JS `message.split('\n')` on the character list: the list of segments
between line breaks (always non-empty; a trailing line break yields a
trailing empty segment, exactly as in JS). -/
def splitLinesChars : List Char → List (List Char)
  | [] => [[]]
  | c :: rest =>
    if c = '\n' then [] :: splitLinesChars rest
    else
      match splitLinesChars rest with
      | [] => [[c]]
      | l :: ls => (c :: l) :: ls

/-- JS `message.split('\n')`. -/
def splitLines (s : String) : List String :=
  (splitLinesChars s.data).map (fun cs => ⟨cs⟩)

/-- One produced syslog frame, as handed to the external `glossy`
producer: resolved severity, host, appName and message text.  The `date`
field (captured at formatting time) is abstracted away. -/
structure Frame where
  severity : Sev
  host : String
  appName : String
  message : String
deriving DecidableEq, Repr

/-- The transport options consulted by `sendMessage`. -/
structure SendOpts where
  levels : List (String × Nat)
  hostname : String
  program : String
  logFormat : String → String → String

/-- The default `logFormat` option of v1:
`function(level, message) { return level + ' ' + message; }`. -/
def defaultLogFormat (level message : String) : String :=
  level ++ " " ++ message

/-- Modelled from the spec: the external `glossy` `Produce.produce` (not
part of this repository) renders one frame as
`<severity> <timestamp> <host> <app-name> - - - <message-text>`; the
timestamp is abstracted away. -/
def sevText : Sev → String
  | .num n => toString n
  | .str s => s

/-- Modelled from the spec: one rendered wire frame (see `sevText`). -/
def renderFrame (f : Frame) : String :=
  sevText f.severity ++ " " ++ f.host ++ " " ++ f.appName ++ " - - - " ++ f.message

/-- The `msg` accumulator of `sendMessage`: each produced frame is appended
followed by CRLF, and the result is handed to `connection.write` in one
call. -/
def foldWire (frames : List Frame) : String :=
  frames.foldl (fun acc f => acc ++ renderFrame f ++ "\r\n") ""

/-- The `gap` variable of `sendMessage`: set to four spaces when the loop
reaches `i === 1` and never reset, so it is `""` for the line at index 0
and `"    "` for every line at index `>= 1`. -/
def gapFor (i : Nat) : String := if 1 ≤ i then "    " else ""

namespace V1

/-- The `severity` field of v1 `sendMessage` (src/index.ts:171):
`this.options.levels[cleanedLevel] || cleanedLevel`. -/
def resolveSeverity (levels : List (String × Nat)) (cleanedLevel : String) : Sev :=
  jsOr (lookupLevel levels cleanedLevel) (Sev.str cleanedLevel)

/-- The default `levels` table of v1 (src/index.ts:74-85). -/
def defaultLevels : List (String × Nat) :=
  [("debug", 0), ("info", 1), ("notice", 2), ("warning", 3), ("warn", 3),
   ("error", 4), ("err", 4), ("crit", 5), ("alert", 6), ("emerg", 7)]

/-- The frame-producing loop of v1 `sendMessage` (src/index.ts:157-177):
stop without a frame when the line is empty and is the last one; otherwise
produce a frame whose message is `logFormat(level, gap + lines[i])`. -/
def sendLoop (o : SendOpts) (level : String) : Nat → List String → List Frame
  | _, [] => []
  | i, l :: rest =>
    if l.length = 0 ∧ rest = [] then []
    else
      { severity := resolveSeverity o.levels (stripColorCodes level),
        host := o.hostname, appName := o.program,
        message := o.logFormat level (gapFor i ++ l) } ::
        sendLoop o level (i + 1) rest

/-- v1 `sendMessage` (src/index.ts:143-180): split the message on line
breaks (`['']` when the message is empty), build the frames, and return
them together with the single string handed to `connection.write`. -/
def sendMessage (o : SendOpts) (level message : String) : List Frame × String :=
  let lines := if message = "" then [""] else splitLines message
  let frames := sendLoop o level 0 lines
  (frames, foldWire frames)

end V1

namespace V2

/-- The `severity` computation of v2 `sendMessage` (src/index.ts:481):
`this.options.levels[level] || 5` — "default to notice if the map
failed". -/
def resolveSeverity (levels : List (String × Nat)) (level : String) : Sev :=
  jsOr (lookupLevel levels level) (Sev.num 5)

/-- The default `levels` table of v2 (src/index.ts:419-430), the RFC5424
numeric severities. -/
def defaultLevels : List (String × Nat) :=
  [("debug", 7), ("info", 6), ("notice", 5), ("warning", 4), ("warn", 4),
   ("error", 3), ("err", 3), ("crit", 2), ("alert", 1), ("emerg", 0)]

/-- The frame-producing loop of v2 `sendMessage` (src/index.ts:470-490):
the same per-line loop and break condition as v1, but the object passed to
`produce` carries the WHOLE `message` (src/index.ts:488), not
`gap + lines[i]`; the `gap` computed by the loop is never used. -/
def sendLoop (o : SendOpts) (level message : String) :
    Nat → List String → List Frame
  | _, [] => []
  | i, l :: rest =>
    if l.length = 0 ∧ rest = [] then []
    else
      { severity := resolveSeverity o.levels level,
        host := o.hostname, appName := o.program,
        message := message } ::
        sendLoop o level message (i + 1) rest

/-- v2 `sendMessage` (src/index.ts:456-493). -/
def sendMessage (o : SendOpts) (level message : String) : List Frame × String :=
  let lines := if message = "" then [""] else splitLines message
  let frames := sendLoop o level message 0 lines
  (frames, foldWire frames)

end V2

/-! ## Helper lemmas -/

theorem mem_drainShift {e : Entry} : ∀ {l : List Entry}, e ∈ l →
    Action.writeOut e.buffer e.callback ∈ drainShift l := by
  intro l
  induction l with
  | nil => intro h; cases h
  | cons x rest ih =>
    intro h
    rcases List.mem_cons.mp h with h | h
    · subst h; exact List.mem_cons_self _ _
    · exact List.mem_cons_of_mem _ (ih h)

theorem drainShift_shape {a : Action} : ∀ {l : List Entry}, a ∈ drainShift l →
    ∃ b c, a = Action.writeOut b c := by
  intro l
  induction l with
  | nil => intro h; cases h
  | cons x rest ih =>
    intro h
    rcases List.mem_cons.mp h with h | h
    · exact ⟨x.buffer, x.callback, h⟩
    · exact ih h

theorem mem_drainPop {e : Entry} {l : List Entry} (h : e ∈ l) :
    Action.writeOut e.buffer e.callback ∈ drainPop l :=
  mem_drainShift (List.mem_reverse.mpr h)

theorem drainPop_shape {a : Action} {l : List Entry} (h : a ∈ drainPop l) :
    ∃ b c, a = Action.writeOut b c :=
  drainShift_shape h

/-- With the stream already cleared, the first v1 `'empty'` listener to run
throws (the unguarded `this.stream!` in `closeStream`). -/
theorem v1_runEmpty_none_throws (s : ConnState) (hs : s.stream = none) (n : Nat) :
    V1.runEmptyListeners s (n + 1) = ((s, []), true) := by
  obtain ⟨d, cr, tr, le, sh, er, q, strm, sock⟩ := s
  dsimp only at hs
  subst hs
  rfl

/-- With at least two v1 `'empty'` teardown listeners registered (a repeated
close on the deferred-flush path), the dispatch throws: the first listener
clears the stream and the duplicated unguarded `closeStream` then throws. -/
theorem v1_runEmpty_throws_after_clear (s : ConnState) (st : StreamState)
    (hs : s.stream = some st) (n : Nat) :
    (V1.runEmptyListeners s (n + 2)).2 = true := by
  obtain ⟨d, cr, tr, le, sh, er, q, strm, sock⟩ := s
  dsimp only at hs
  subst hs
  show (V1.runEmptyListeners _ ((n + 1) + 1)).2 = true
  simp [V1.runEmptyListeners, V1.closeStream,
    v1_runEmpty_none_throws ⟨d, cr, tr, le, sh, er, q, none, sock⟩ rfl n]

/-- Once `closeSockets` has cleared both sockets, every further v2 `'empty'`
listener dispatch is a guarded no-op. -/
theorem v2_runEmpty_cleared (n : Nat) (s : ConnState)
    (hs : s.stream = none) (hsock : s.socket = false) :
    V2.runEmptyListeners s n = (s, []) := by
  induction n with
  | zero => rfl
  | succ n ih =>
    simp [V2.runEmptyListeners, V2.closeSockets, hs, hsock, ih]

/-- The `onErrored` timer body changes `connectionDelay` and
`currentRetries` exactly as the guarded doubling prescribes, and leaves
them alone otherwise. -/
theorem onErroredStep_delay_retries (o : Options) (s : ConnState) :
    (s.connectionDelay < o.maxDelayBetweenReconnection ∧
        o.attemptsBeforeDecay ≤ s.currentRetries →
      ((onErroredStep o s).1).connectionDelay = s.connectionDelay * 2
      ∧ ((onErroredStep o s).1).currentRetries = s.currentRetries + 1)
    ∧ (¬ (s.connectionDelay < o.maxDelayBetweenReconnection ∧
          o.attemptsBeforeDecay ≤ s.currentRetries) →
      ((onErroredStep o s).1).connectionDelay = s.connectionDelay
      ∧ ((onErroredStep o s).1).currentRetries = s.currentRetries) := by
  unfold onErroredStep
  dsimp only
  constructor
  · intro h
    rw [if_pos h]
    split <;> exact ⟨rfl, rfl⟩
  · intro h
    rw [if_neg h]
    split <;> exact ⟨rfl, rfl⟩

/-! ## Claim theorems -/

/-- C1: with pending entries "a" then "b" and a writable stream, the v1
`processBuffer` (`shift()`) flushes them in first-in-first-out order, but
the v2 `processBuffer` (`pop()`) writes "b" before "a": the claimed FIFO
delivery order relative to enqueue order is violated by the second
implementation (no payload is omitted, but the order is reversed). -/
theorem c1_processBuffer_pop_reverses_order :
    (V1.processBuffer
      ⟨1000, 0, 0, true, false, false, [⟨"a", 0⟩, ⟨"b", 1⟩],
        some ⟨true, false, 0⟩, true⟩).2.1 =
      [Action.writeOut "a" 0, Action.writeOut "b" 1, Action.emitEmpty]
    ∧ (V2.processBuffer
      ⟨1000, 0, 0, true, false, false, [⟨"a", 0⟩, ⟨"b", 1⟩],
        some ⟨true, false, 0⟩, true⟩).2.1 =
      [Action.writeOut "b" 1, Action.writeOut "a" 0, Action.emitEmpty] := by
  exact ⟨by decide, by decide⟩

/-- C4: with `loggingEnabled = false` and no writable stream (here: after
the degrade the spec describes), both implementations of `write` still
append the payload to the deferred queue — `write` never consults
`loggingEnabled`, so the queue keeps growing; nothing is silently
dropped. -/
theorem c4_write_ignores_loggingEnabled :
    V1.write ⟨1000, 0, 0, false, false, false, [], none, false⟩ "x" 0 =
      .ok (⟨1000, 0, 0, false, false, false, [⟨"x", 0⟩], none, false⟩, [])
    ∧ V2.write ⟨1000, 0, 0, false, false, false, [], none, false⟩ "x" 0 =
      .ok (⟨1000, 0, 0, false, false, false, [⟨"x", 0⟩], none, false⟩, []) := by
  exact ⟨rfl, rfl⟩

/-- C5: `totalRetries` is never incremented by the error path (it is only
ever reset to 0): after 30 consecutive failed attempts under the default
configuration (`maximumAttempts = 25`) it is still 0 and `loggingEnabled`
is still true, so the claimed maximum-retries degrade never fires. -/
theorem c5_totalRetries_never_incremented :
    (∀ o s, ((onErroredStep o s).1).totalRetries = s.totalRetries)
    ∧ (failSeq ⟨5, 25, 1000, 60000, false⟩
        ⟨1000, 0, 0, true, false, false, [], none, false⟩ 30).totalRetries = 0
    ∧ (failSeq ⟨5, 25, 1000, 60000, false⟩
        ⟨1000, 0, 0, true, false, false, [], none, false⟩ 30).loggingEnabled = true := by
  refine ⟨fun o s => ?_, by decide, by decide⟩
  unfold onErroredStep
  dsimp only
  split <;> split <;> rfl

/-- C9: a mapped severity of 0 is NOT used: the JS lookup `levels[l] || x`
treats the number 0 as falsy, so v2 resolves the mapped level "emerg"
(table value 0) to the fallback 5, and v1 resolves the mapped level
"debug" (table value 0) to the level string itself; a genuinely mapped
nonzero value ("crit") resolves to the table value. -/
theorem c9_severity_zero_fallback_bug :
    lookupLevel V2.defaultLevels "emerg" = some 0
    ∧ V2.resolveSeverity V2.defaultLevels "emerg" = Sev.num 5
    ∧ lookupLevel V1.defaultLevels "debug" = some 0
    ∧ V1.resolveSeverity V1.defaultLevels "debug" = Sev.str "debug"
    ∧ V2.resolveSeverity V2.defaultLevels "crit" = Sev.num 2 := by
  exact ⟨by decide, by decide, by decide, by decide, by decide⟩

/-- C8: on the two-line body "a\nb", the v1 `sendMessage` produces one frame
per line with the 4-space continuation gap and CRLF-terminated frames
concatenated into the single write; the v2 `sendMessage` instead puts the
WHOLE body into every frame and never applies the gap (its `lines`/`gap`
are computed but unused), so its frames do not contain only their own
line's text.  A body with a trailing line break produces no blank frame in
either version. -/
theorem c8_v2_sendMessage_repeats_whole_body :
    (V1.sendMessage ⟨V1.defaultLevels, "h", "p", defaultLogFormat⟩
        "info" "a\nb").1.map Frame.message = ["info a", "info     b"]
    ∧ (V1.sendMessage ⟨V1.defaultLevels, "h", "p", defaultLogFormat⟩
        "info" "a\nb").2 =
      "1 h p - - - info a\r\n1 h p - - - info     b\r\n"
    ∧ (V1.sendMessage ⟨V1.defaultLevels, "h", "p", defaultLogFormat⟩
        "info" "a\n").1.map Frame.message = ["info a"]
    ∧ (V2.sendMessage ⟨V2.defaultLevels, "h", "p", defaultLogFormat⟩
        "info" "a\nb").1.map Frame.message = ["a\nb", "a\nb"]
    ∧ (V2.sendMessage ⟨V2.defaultLevels, "h", "p", defaultLogFormat⟩
        "info" "a\n").1.map Frame.message = ["a\n"] := by
  exact ⟨by decide, by decide, by decide, by decide, by decide⟩

/-- C10: whenever the stream is absent or not writable — whatever the other
state fields, so in particular after `close()` has run and with
`loggingEnabled = false` — both implementations of `write` append the
`(payload, callback)` pair to the Pending Write Queue; and in any state at
all, a v2 `write` that returns either appended the pair or performed the
stream write, so no payload is discarded. -/
theorem c10_write_always_queues (s : ConnState) (text : String) (cb : Nat) :
    (streamWritable s = false →
      V1.write s text cb = .ok (enqueue s text cb, [])
      ∧ V2.write s text cb = .ok (enqueue s text cb, []))
    ∧ (∀ r, V2.write s text cb = .ok r →
        r.1.deferredQueue = s.deferredQueue ++ [⟨text, cb⟩]
        ∨ r.2 = [Action.writeOut text cb]) := by
  obtain ⟨d, cr, tr, le, sh, er, q, strm, sock⟩ := s
  cases strm with
  | none =>
    refine ⟨fun _ => ⟨rfl, rfl⟩, fun r hr => ?_⟩
    left
    cases hr
    rfl
  | some st =>
    cases hw : st.writable with
    | false =>
      refine ⟨fun _ => ?_, fun r hr => ?_⟩
      · constructor <;> simp [V1.write, V2.write, hw]
      · left
        simp only [V2.write, hw, Bool.false_eq_true, if_false] at hr
        cases hr
        rfl
    | true =>
      refine ⟨fun h => ?_, fun r hr => ?_⟩
      · exact absurd h (by simp [streamWritable, hw])
      · cases ht : st.writeThrows with
        | false =>
          right
          simp only [V2.write, hw, if_true, streamWrite, ht,
            Bool.false_eq_true, if_false] at hr
          cases hr
          rfl
        | true =>
          left
          simp only [V2.write, hw, if_true, streamWrite, ht, if_true] at hr
          cases hr
          rfl

/-- C10 witness: in a post-close, degraded state (no stream,
`loggingEnabled = false`, `_shutdown = true`) both writes append. -/
theorem c10_write_always_queues_witness :
    V1.write ⟨1000, 0, 0, false, true, false, [], none, false⟩ "x" 0 =
      .ok (enqueue ⟨1000, 0, 0, false, true, false, [], none, false⟩ "x" 0, [])
    ∧ V2.write ⟨1000, 0, 0, false, true, false, [], none, false⟩ "x" 0 =
      .ok (enqueue ⟨1000, 0, 0, false, true, false, [], none, false⟩ "x" 0, []) :=
  (c10_write_always_queues ⟨1000, 0, 0, false, true, false, [], none, false⟩ "x" 0).1 rfl

/-- C7 counterexample: on a writable stream whose synchronous write throws,
the v1 `write` — which has no try/catch — propagates the exception to the
caller instead of falling back to the queue. -/
theorem c7_v1_write_raises_cex :
    V1.write ⟨1000, 0, 0, true, false, false, [], some ⟨true, true, 0⟩, true⟩
      "x" 0 = Except.error () := rfl

/-- C7 (amended): the v2 `write` never raises — it always returns normally —
and a synchronous stream-write failure makes the payload fall back to the
Pending Write Queue; the v1 `write` does not have this protection (see the
counterexample). -/
theorem c7_v2_write_never_raises (s : ConnState) (text : String) (cb : Nat) :
    (∃ r, V2.write s text cb = Except.ok r)
    ∧ (∀ st, s.stream = some st → st.writable = true → st.writeThrows = true →
        V2.write s text cb = .ok (enqueue s text cb, [])) := by
  obtain ⟨d, cr, tr, le, sh, er, q, strm, sock⟩ := s
  cases strm with
  | none => exact ⟨⟨_, rfl⟩, fun st hst => by cases hst⟩
  | some st =>
    obtain ⟨wr, wt, oe⟩ := st
    constructor
    · cases wr <;> cases wt <;> exact ⟨_, rfl⟩
    · intro st' hst hw ht
      cases hst
      cases wr with
      | false => simp at hw
      | true =>
        cases wt with
        | false => simp at ht
        | true => rfl

/-- C7 witness: a concrete writable-but-throwing stream, on which the v2
write returns normally and queues the payload. -/
theorem c7_v2_write_never_raises_witness :
    V2.write ⟨1000, 0, 0, true, false, false, [], some ⟨true, true, 0⟩, true⟩
      "x" 0 =
      .ok (enqueue ⟨1000, 0, 0, true, false, false, [], some ⟨true, true, 0⟩, true⟩
        "x" 0, []) :=
  (c7_v2_write_never_raises
    ⟨1000, 0, 0, true, false, false, [], some ⟨true, true, 0⟩, true⟩ "x" 0).2
    ⟨true, true, 0⟩ rfl rfl rfl

/-- C6 counterexample: after the v2 `close()` has run, `_shutdown` is back
to `false` (the `_close` body resets it), so a later `connect()` — e.g. from
a reconnect timer that was pending at close time — is NOT a no-op: it
starts a new connection. -/
theorem c6_v2_close_resets_shutdown_cex :
    (((V2.close ⟨5, 25, 1000, 60000, true⟩
        ⟨1000, 0, 0, true, false, false, [], none, false⟩).1)._shutdown = false)
    ∧ (V2.connect ⟨5, 25, 1000, 60000, true⟩
        ((V2.close ⟨5, 25, 1000, 60000, true⟩
          ⟨1000, 0, 0, true, false, false, [], none, false⟩).1)).2 =
      [Action.startConnection] := by
  exact ⟨rfl, rfl⟩

/-- C6 (amended): `close()` itself returns without raising in both
implementations, and on the immediate-teardown path (`flushOnClose` unset,
or empty queue, or no stream) it is idempotent — a repeated call leaves the
state unchanged and performs no actions.  On the deferred-flush path each
repeated close registers one more `'empty'` listener: the v2 duplicates are
harmless (after a double close the dispatch still tears the stream down
exactly once and returns normally), but the duplicated v1 unguarded
`closeStream` listener throws when `'empty'` is dispatched, so a repeated
v1 close is not safe.  In v1 the teardown branch latches
`_shutdown = true` and every later `connect()` is a no-op; in v2 `close()`
finishes with `_shutdown = false`, so the guard only blocks `connect()`
while `close()` itself is running. -/
theorem c6_close_amended (o : Options) (s : ConnState) :
    ((V1.closeFinal o s).1)._shutdown = true
    ∧ V1.connect o ((V1.closeFinal o s).1) = (((V1.closeFinal o s).1), [])
    ∧ ((V2.close o s).1)._shutdown = false
    ∧ (o.flushOnClose = false ∨ s.deferredQueue = [] ∨ s.stream = none →
        V1.closeFinal o ((V1.closeFinal o s).1) = ((V1.closeFinal o s).1, [])
        ∧ V2.close o ((V2.close o s).1) = ((V2.close o s).1, []))
    ∧ (∀ st, s.stream = some st → o.flushOnClose = true → s.deferredQueue ≠ [] →
        ((V1.closeFinal o ((V1.closeFinal o s).1)).1).stream =
          some { st with onEmptyClose := st.onEmptyClose + 2 }
        ∧ ((V2.close o ((V2.close o s).1)).1).stream =
          some { st with onEmptyClose := st.onEmptyClose + 2 }
        ∧ (V1.emitEmpty ((V1.closeFinal o ((V1.closeFinal o s).1)).1)).2 = true
        ∧ ((V2.emitEmpty ((V2.close o ((V2.close o s).1)).1)).1).stream = none
        ∧ ((V2.emitEmpty ((V2.close o ((V2.close o s).1)).1)).2).count
            Action.destroyStream = 1) := by
  obtain ⟨d, cr, tr, le, sh, er, q, strm, sock⟩ := s
  refine ⟨?_, ?_, ?_, ?_, ?_⟩
  · cases strm with
    | none => cases sock <;> simp [V1.closeFinal]
    | some st =>
      by_cases hf : o.flushOnClose ∧ 0 < q.length <;> cases sock <;>
        simp [V1.closeFinal, hf]
  · cases strm with
    | none => cases sock <;> simp [V1.closeFinal, V1.connect]
    | some st =>
      by_cases hf : o.flushOnClose ∧ 0 < q.length <;> cases sock <;>
        simp [V1.closeFinal, V1.connect, hf]
  · cases strm with
    | none => simp [V2.close]
    | some st =>
      by_cases hf : o.flushOnClose ∧ 0 < q.length <;> cases sock <;>
        simp [V2.close, V2.closeSockets, hf]
  · intro h
    dsimp only at h
    cases strm with
    | none => cases sock <;> simp [V1.closeFinal, V2.close, V2.closeSockets]
    | some st =>
      have hnf : ¬ (o.flushOnClose ∧ 0 < q.length) := by
        rcases h with h | h | h
        · simp [h]
        · simp [h]
        · exact absurd h (by simp)
      cases sock <;> simp [V1.closeFinal, V2.close, V2.closeSockets, hnf]
  · intro st hst hf hq
    dsimp only at hst hq
    subst hst
    have hqpos : 0 < q.length := List.length_pos.mpr hq
    refine ⟨?_, ?_, ?_, ?_, ?_⟩
    · cases sock <;> simp [V1.closeFinal, hf, hqpos]
    · cases sock <;> simp [V2.close, hf, hqpos]
    · cases sock <;>
        simp [V1.closeFinal, V1.emitEmpty, V1.runEmptyListeners, V1.closeStream,
          hf, hqpos]
    · cases sock <;>
        simp [V2.close, V2.emitEmpty, V2.runEmptyListeners, V2.closeSockets,
          hf, hqpos, v2_runEmpty_cleared]
    · cases sock <;>
        simp [V2.close, V2.emitEmpty, V2.runEmptyListeners, V2.closeSockets,
          hf, hqpos, v2_runEmpty_cleared]

/-- C6 witness: the amended theorem instantiated — with `flushOnClose`
unset a repeated close is the identity, and on the deferred-flush path a
double close leaves two listeners, whose v1 dispatch throws while the v2
dispatch destroys the stream exactly once. -/
theorem c6_close_amended_witness :
    (V1.closeFinal ⟨5, 25, 1000, 60000, false⟩
        ((V1.closeFinal ⟨5, 25, 1000, 60000, false⟩
          ⟨1000, 0, 0, true, false, false, [⟨"m", 0⟩],
            some ⟨false, false, 0⟩, true⟩).1) =
      ((V1.closeFinal ⟨5, 25, 1000, 60000, false⟩
          ⟨1000, 0, 0, true, false, false, [⟨"m", 0⟩],
            some ⟨false, false, 0⟩, true⟩).1, [])
     ∧ V2.close ⟨5, 25, 1000, 60000, false⟩
        ((V2.close ⟨5, 25, 1000, 60000, false⟩
          ⟨1000, 0, 0, true, false, false, [⟨"m", 0⟩],
            some ⟨false, false, 0⟩, true⟩).1) =
      ((V2.close ⟨5, 25, 1000, 60000, false⟩
          ⟨1000, 0, 0, true, false, false, [⟨"m", 0⟩],
            some ⟨false, false, 0⟩, true⟩).1, []))
    ∧ (((V1.closeFinal ⟨5, 25, 1000, 60000, true⟩
          ((V1.closeFinal ⟨5, 25, 1000, 60000, true⟩
            ⟨1000, 0, 0, true, false, false, [⟨"m", 0⟩],
              some ⟨false, false, 0⟩, true⟩).1)).1).stream =
        some { writable := false, writeThrows := false, onEmptyClose := 0 + 2 }
      ∧ ((V2.close ⟨5, 25, 1000, 60000, true⟩
          ((V2.close ⟨5, 25, 1000, 60000, true⟩
            ⟨1000, 0, 0, true, false, false, [⟨"m", 0⟩],
              some ⟨false, false, 0⟩, true⟩).1)).1).stream =
        some { writable := false, writeThrows := false, onEmptyClose := 0 + 2 }
      ∧ (V1.emitEmpty ((V1.closeFinal ⟨5, 25, 1000, 60000, true⟩
          ((V1.closeFinal ⟨5, 25, 1000, 60000, true⟩
            ⟨1000, 0, 0, true, false, false, [⟨"m", 0⟩],
              some ⟨false, false, 0⟩, true⟩).1)).1)).2 = true
      ∧ ((V2.emitEmpty ((V2.close ⟨5, 25, 1000, 60000, true⟩
          ((V2.close ⟨5, 25, 1000, 60000, true⟩
            ⟨1000, 0, 0, true, false, false, [⟨"m", 0⟩],
              some ⟨false, false, 0⟩, true⟩).1)).1)).1).stream = none
      ∧ ((V2.emitEmpty ((V2.close ⟨5, 25, 1000, 60000, true⟩
          ((V2.close ⟨5, 25, 1000, 60000, true⟩
            ⟨1000, 0, 0, true, false, false, [⟨"m", 0⟩],
              some ⟨false, false, 0⟩, true⟩).1)).1)).2).count
          Action.destroyStream = 1) :=
  ⟨(c6_close_amended ⟨5, 25, 1000, 60000, false⟩
      ⟨1000, 0, 0, true, false, false, [⟨"m", 0⟩],
        some ⟨false, false, 0⟩, true⟩).2.2.2.1 (Or.inl rfl),
   (c6_close_amended ⟨5, 25, 1000, 60000, true⟩
      ⟨1000, 0, 0, true, false, false, [⟨"m", 0⟩],
        some ⟨false, false, 0⟩, true⟩).2.2.2.2 ⟨false, false, 0⟩ rfl rfl
      (by decide)⟩

/-- C3 counterexample: with `attemptsBeforeDecay = 0` and
`maxDelayBetweenReconnection = 3`, one failed attempt starting from delay 2
doubles the delay to 4, which EXCEEDS the configured maximum: the delay is
only compared against the maximum before doubling, so it can overshoot it
by up to a factor of two. -/
theorem c3_delay_exceeds_max_cex :
    ((onErroredStep ⟨0, 25, 2, 3, false⟩
        ⟨2, 0, 0, true, false, false, [], none, false⟩).1).connectionDelay = 4
    ∧ 3 < ((onErroredStep ⟨0, 25, 2, 3, false⟩
        ⟨2, 0, 0, true, false, false, [], none, false⟩).1).connectionDelay := by
  exact ⟨rfl, by decide⟩

theorem failSeq_currentRetries_le (o : Options) (s : ConnState) (n : Nat) :
    (failSeq o s n).currentRetries ≤ s.currentRetries + n := by
  induction n with
  | zero => simp [failSeq]
  | succ n ih =>
    have h := onErroredStep_delay_retries o (failSeq o s n)
    by_cases hc : (failSeq o s n).connectionDelay < o.maxDelayBetweenReconnection ∧
        o.attemptsBeforeDecay ≤ (failSeq o s n).currentRetries
    · have e := (h.1 hc).2
      simp only [failSeq]
      omega
    · have e := (h.2 hc).2
      simp only [failSeq]
      omega

/-- C3 (amended): across every sequence of consecutive failed attempts
starting from a post-success state (`currentRetries = 0`), the backoff
delay is monotonically non-decreasing; it stays below TWICE the configured
`maxDelayBetweenReconnection` whenever it starts below that bound (it can
exceed the maximum itself, see the counterexample); and the delay grows
(doubles) at a step only when at least `attemptsBeforeDecay` consecutive
failures have already occurred and the delay is still below the
maximum. -/
theorem c3_backoff_monotone_bounded (o : Options) (s : ConnState)
    (h0 : s.currentRetries = 0)
    (hd : s.connectionDelay < 2 * o.maxDelayBetweenReconnection) (n : Nat) :
    (failSeq o s n).connectionDelay ≤ (failSeq o s (n + 1)).connectionDelay
    ∧ (failSeq o s n).connectionDelay < 2 * o.maxDelayBetweenReconnection
    ∧ ((failSeq o s (n + 1)).connectionDelay ≠ (failSeq o s n).connectionDelay →
        o.attemptsBeforeDecay ≤ n
        ∧ (failSeq o s n).connectionDelay < o.maxDelayBetweenReconnection) := by
  have hb : ∀ m, (failSeq o s m).connectionDelay <
      2 * o.maxDelayBetweenReconnection := by
    intro m
    induction m with
    | zero => simpa [failSeq] using hd
    | succ m ih =>
      have h := onErroredStep_delay_retries o (failSeq o s m)
      by_cases hc : (failSeq o s m).connectionDelay < o.maxDelayBetweenReconnection ∧
          o.attemptsBeforeDecay ≤ (failSeq o s m).currentRetries
      · have e := (h.1 hc).1
        have := hc.1
        simp only [failSeq]
        omega
      · have e := (h.2 hc).1
        simp only [failSeq]
        omega
  have h := onErroredStep_delay_retries o (failSeq o s n)
  refine ⟨?_, hb n, ?_⟩
  · by_cases hc : (failSeq o s n).connectionDelay < o.maxDelayBetweenReconnection ∧
        o.attemptsBeforeDecay ≤ (failSeq o s n).currentRetries
    · have e := (h.1 hc).1
      simp only [failSeq]
      omega
    · have e := (h.2 hc).1
      simp only [failSeq]
      omega
  · intro hne
    by_cases hc : (failSeq o s n).connectionDelay < o.maxDelayBetweenReconnection ∧
        o.attemptsBeforeDecay ≤ (failSeq o s n).currentRetries
    · have hcr := failSeq_currentRetries_le o s n
      rw [h0] at hcr
      exact ⟨le_trans hc.2 (by omega), hc.1⟩
    · exfalso
      apply hne
      have e := (h.2 hc).1
      simp only [failSeq]
      omega

/-- C3 witness: the amended theorem at the counterexample configuration,
step 0 (where the delay does change from 2 to 4). -/
theorem c3_backoff_monotone_bounded_witness :
    (failSeq ⟨0, 25, 2, 3, false⟩
        ⟨2, 0, 0, true, false, false, [], none, false⟩ 0).connectionDelay ≤
      (failSeq ⟨0, 25, 2, 3, false⟩
        ⟨2, 0, 0, true, false, false, [], none, false⟩ 1).connectionDelay
    ∧ (failSeq ⟨0, 25, 2, 3, false⟩
        ⟨2, 0, 0, true, false, false, [], none, false⟩ 0).connectionDelay < 2 * 3
    ∧ ((failSeq ⟨0, 25, 2, 3, false⟩
          ⟨2, 0, 0, true, false, false, [], none, false⟩ 1).connectionDelay ≠
        (failSeq ⟨0, 25, 2, 3, false⟩
          ⟨2, 0, 0, true, false, false, [], none, false⟩ 0).connectionDelay →
        0 ≤ 0
        ∧ (failSeq ⟨0, 25, 2, 3, false⟩
            ⟨2, 0, 0, true, false, false, [], none, false⟩ 0).connectionDelay < 3) :=
  c3_backoff_monotone_bounded ⟨0, 25, 2, 3, false⟩
    ⟨2, 0, 0, true, false, false, [], none, false⟩ rfl (by decide) 0

/-- C2 counterexample: in v1, with `flushOnClose` configured, a non-empty
queue and the connection down (stream present but not writable, raw socket
live), the teardown branch of `close()` destroys the raw socket AT ONCE —
before any queued payload has been written — and latches `_shutdown`, so
the subsequent `connect()` (e.g. the pending reconnect timer) is a no-op
and the queue can never drain through a successful connection. -/
theorem c2_v1_close_destroys_socket_before_flush :
    (V1.closeFinal ⟨5, 25, 1000, 60000, true⟩
      ⟨1000, 0, 0, true, false, false, [⟨"m", 0⟩],
        some ⟨false, false, 0⟩, true⟩).2 = [Action.destroySocket]
    ∧ ((V1.closeFinal ⟨5, 25, 1000, 60000, true⟩
      ⟨1000, 0, 0, true, false, false, [⟨"m", 0⟩],
        some ⟨false, false, 0⟩, true⟩).1)._shutdown = true
    ∧ V1.connect ⟨5, 25, 1000, 60000, true⟩
        ((V1.closeFinal ⟨5, 25, 1000, 60000, true⟩
          ⟨1000, 0, 0, true, false, false, [⟨"m", 0⟩],
            some ⟨false, false, 0⟩, true⟩).1) =
      (((V1.closeFinal ⟨5, 25, 1000, 60000, true⟩
          ⟨1000, 0, 0, true, false, false, [⟨"m", 0⟩],
            some ⟨false, false, 0⟩, true⟩).1), []) := by
  exact ⟨rfl, rfl, rfl⟩

/-- C2 (amended, v2 only): when the v2 `close()` runs with `flushOnClose`,
a non-empty queue and a stream present, it destroys nothing — it installs
one more `'empty'` teardown listener on the stream — and once that same
stream completes its connection and `onConnected` drains the queue with no
write throwing synchronously, no exception propagates and every queued
payload is written to the stream strictly before the listeners destroy the
sockets.  (On a stream whose writes throw, the un-caught throw aborts the
drain instead and `'empty'` never fires — hence the `writeThrows = false`
hypothesis.) -/
theorem c2_v2_flush_on_close_defers_teardown
    (o : Options) (s : ConnState) (st : StreamState)
    (hf : o.flushOnClose = true) (hs : s.stream = some st)
    (hq : s.deferredQueue ≠ []) (hw : st.writeThrows = false) :
    (V2.close o s).2 = []
    ∧ ((V2.close o s).1).stream =
      some { st with onEmptyClose := st.onEmptyClose + 1 }
    ∧ (V2.onConnected o (markWritable (V2.close o s).1)).2.2 = false
    ∧ ∃ w t, (V2.onConnected o (markWritable (V2.close o s).1)).2.1 = w ++ t
        ∧ (∀ e ∈ s.deferredQueue, Action.writeOut e.buffer e.callback ∈ w)
        ∧ (∀ a ∈ w, a ≠ Action.destroySocket ∧ a ≠ Action.destroyStream)
        ∧ Action.destroyStream ∈ t := by
  obtain ⟨d, cr, tr, le, sh, er, q, strm, sock⟩ := s
  dsimp only at hs hq ⊢
  subst hs
  have hqpos : 0 < q.length := List.length_pos.mpr hq
  have hql : ¬ (q.length = 0) := by omega
  refine ⟨?_, ?_, ?_, ?_⟩
  · simp [V2.close, hf, hqpos]
  · simp [V2.close, hf, hqpos]
  · cases sock <;>
      simp [V2.close, V2.onConnected, V2.processBuffer, V2.emitEmpty,
        V2.runEmptyListeners, V2.closeSockets, markWritable, streamWritable,
        hf, hqpos, hql, hw, drainLoop_no_throw, v2_runEmpty_cleared]
  · refine ⟨drainPop q,
      (Action.emitEmpty ::
        ((if sock then [Action.destroySocket] else []) ++ [Action.destroyStream])) ++
        [Action.emitConnect], ?_, ?_, ?_, ?_⟩
    · cases sock <;>
        simp [V2.close, V2.onConnected, V2.processBuffer, V2.emitEmpty,
          V2.runEmptyListeners, V2.closeSockets, markWritable, streamWritable,
          hf, hqpos, hql, hw, drainLoop_no_throw, v2_runEmpty_cleared, drainPop]
    · exact fun e he => mem_drainPop he
    · intro a ha
      obtain ⟨b, c, rfl⟩ := drainPop_shape ha
      exact ⟨by simp, by simp⟩
    · cases sock <;> simp

/-- C2 witness: the amended theorem on a concrete down connection (one
queued payload "m", unwritable non-throwing stream, live raw socket). -/
theorem c2_v2_flush_on_close_defers_teardown_witness :
    (V2.close ⟨5, 25, 1000, 60000, true⟩
      ⟨1000, 0, 0, true, false, false, [⟨"m", 0⟩],
        some ⟨false, false, 0⟩, true⟩).2 = []
    ∧ ((V2.close ⟨5, 25, 1000, 60000, true⟩
      ⟨1000, 0, 0, true, false, false, [⟨"m", 0⟩],
        some ⟨false, false, 0⟩, true⟩).1).stream =
      some { writable := false, writeThrows := false, onEmptyClose := 0 + 1 }
    ∧ (V2.onConnected ⟨5, 25, 1000, 60000, true⟩
        (markWritable (V2.close ⟨5, 25, 1000, 60000, true⟩
          ⟨1000, 0, 0, true, false, false, [⟨"m", 0⟩],
            some ⟨false, false, 0⟩, true⟩).1)).2.2 = false
    ∧ ∃ w t, (V2.onConnected ⟨5, 25, 1000, 60000, true⟩
        (markWritable (V2.close ⟨5, 25, 1000, 60000, true⟩
          ⟨1000, 0, 0, true, false, false, [⟨"m", 0⟩],
            some ⟨false, false, 0⟩, true⟩).1)).2.1 = w ++ t
        ∧ (∀ e ∈ ([⟨"m", 0⟩] : List Entry),
            Action.writeOut e.buffer e.callback ∈ w)
        ∧ (∀ a ∈ w, a ≠ Action.destroySocket ∧ a ≠ Action.destroyStream)
        ∧ Action.destroyStream ∈ t :=
  c2_v2_flush_on_close_defers_teardown ⟨5, 25, 1000, 60000, true⟩
    ⟨1000, 0, 0, true, false, false, [⟨"m", 0⟩], some ⟨false, false, 0⟩, true⟩
    ⟨false, false, 0⟩ rfl rfl (by decide) rfl

end Papertrail
